import Mathlib

/-!
Verification of the libvrsdk VRS entity facade (`api/Entity.go`) and the
generated REST model (`vspk` `MetadataTag`).

The facade wraps an OVSDB client.  We embed each public operation as a pure
function parameterised by a `VRSConnection`: a record of response functions,
one per wrapped-client table call.  Each operation returns its Go result
(`Except String α` for `error`/value) together with the ordered trace of
OVSDB table calls it issued, so statements such as "issues no row update" or
"at most one call" are about the trace.
-/

namespace Vrsdk

/-- A value stored in an OVSDB row cell, as used by `api/Entity.go`:
strings, integers, sets of strings, and string maps (possibly `nil`). -/
inductive OvsdbValue where
  | str (s : String)
  | int (n : Int)
  | strSet (ss : List String)
  | strMap (m : Option (List (String × String)))
deriving DecidableEq, Repr

/-- A row as read from OVSDB: an association list from column names to
values (Go `map[string]interface\x7b\x7d`). -/
abbrev Row := List (String × OvsdbValue)

/-- A row update payload: column name to new value (the Go code builds a
`map[string]interface\x7b\x7d` with one or two keys). -/
abbrev RowUpdate := List (String × OvsdbValue)

/-- Modelled from the spec: the `ovsdb` package's `NuageVMTable` column-name
constants are not under `src/`; the spec lists "columns for UUID, state,
reason, event fields, metadata, ports".  The literal strings are placeholders;
only their distinctness matters. -/
def nuageVMTableColumnVMUUID : String := "vm_uuid"

def nuageVMTableColumnPorts : String := "nuage_ports"

def nuageVMTableColumnState : String := "state"

def nuageVMTableColumnReason : String := "reason"

def nuageVMTableColumnEventCategory : String := "event"

def nuageVMTableColumnEventType : String := "event_type"

def nuageVMTableColumnMetadata : String := "metadata"

/-- Modelled from the spec: the `entity` package constants used by
`CreateEntity` (`entity.EventCategoryDefined`, `entity.EventDefinedAdded`,
`entity.Running`, `entity.RunningUnknown`) are not under `src/`; they are
fixed integers of a static table.  Values are placeholders. -/
def eventCategoryDefined : Int := 0

def eventDefinedAdded : Int := 0

def running : Int := 2

def runningUnknown : Int := 0

/-- Modelled from the spec: the `entity` package metadata keys
(`entity.MetadataKeyUser`, `entity.MetadataKeyEnterprise`) are not under
`src/`; they are two distinct string constants. -/
def metadataKeyUser : String := "user"

def metadataKeyEnterprise : String := "enterprise"

/-- `ovsdb.NuageVMTableRow` restricted to the fields `CreateEntity` fills
(`src/api/Entity.go:44-57`). -/
structure NuageVMTableRow where
  type : Int
  event : Int
  eventType : Int
  state : Int
  reason : Int
  vmName : String
  vmUuid : String
  domain : String
  nuageUser : String
  nuageEnterprise : String
  metadata : Option (List (String × String))
  ports : List String
deriving DecidableEq, Repr

/-- `ovsdb.ReadRowArgs` (`src/api/Entity.go:141-144`): requested columns and
a three-string condition. -/
structure ReadRowArgs where
  columns : List String
  condition : List String
deriving DecidableEq, Repr

/-- One wrapped-client OVSDB table call, as issued by the facade. -/
inductive OvsdbOp where
  | insertRow (row : NuageVMTableRow)
  | deleteRow (cond : List String)
  | updateRow (row : RowUpdate) (cond : List String)
  | readRow (args : ReadRowArgs)
  | readRows (args : ReadRowArgs)
deriving DecidableEq, Repr

/-- The connection handle: response functions for the wrapped OVSDB client's
table calls.  `readRow` models `vmTable.ReadRow` composed with
`ovsdb.UnMarshallOVSStringSet` (both in the repo's `ovsdb` package, not under
`src/`; modelled from the spec as the read delegation yielding the port list
or an error).  `readRows` yields raw rows. -/
structure VRSConnection where
  insertRow : NuageVMTableRow → Except String Unit
  deleteRow : List String → Except String Unit
  updateRow : RowUpdate → List String → Except String Unit
  readRow : ReadRowArgs → Except String (List String)
  readRows : ReadRowArgs → Except String (List Row)

/-- `api.EntityInfo` (`src/api/Entity.go:12-19`).  `entity.Type` is an
integer, `entity.Domain` a string; `Metadata` is a Go map that may be `nil`,
embedded as an optional association list. -/
structure EntityInfo where
  uuid : String
  name : String
  type : Int
  domain : String
  ports : List String
  metadata : Option (List (String × String))
deriving DecidableEq, Repr

/-- Is a Go result an error? -/
def isErr : Except String α → Bool
  | .error _ => true
  | .ok _ => false

/-- Lookup in a possibly-`nil` Go map, returning the zero value `""` when the
map is `nil` or the key is absent (Go `m[k]` semantics). -/
def mapGet (m : Option (List (String × String))) (k : String) : String :=
  match m with
  | none => ""
  | some l => (l.lookup k).getD ""

/-- The condition `[]string\x7bNuageVMTableColumnVMUUID, "==", uuid\x7d` built by
every mutating operation. -/
def uuidCond (uuid : String) : List String :=
  [nuageVMTableColumnVMUUID, "==", uuid]

/-- The row `CreateEntity` builds (`src/api/Entity.go:34-57`): the metadata
map is copied and the user key deleted (`delete` on a `nil` map is a no-op,
so `nil` stays `nil`); the `NuageUser`/`NuageEnterprise` columns read the
original, unmodified `info.Metadata`. -/
def nuageVMRowOf (info : EntityInfo) : NuageVMTableRow :=
  let metadata : Option (List (String × String)) :=
    match info.metadata with
    | none => none
    | some m => some (m.filter (fun kv => !(kv.1 == metadataKeyUser)))
  { type := info.type
    event := eventCategoryDefined
    eventType := eventDefinedAdded
    state := running
    reason := runningUnknown
    vmName := info.name
    vmUuid := info.uuid
    domain := info.domain
    nuageUser := mapGet info.metadata metadataKeyUser
    nuageEnterprise := mapGet info.metadata metadataKeyEnterprise
    metadata := metadata
    ports := info.ports }

/-- `CreateEntity` (`src/api/Entity.go:22-64`): reject empty UUID or name,
then insert the constructed row. -/
def createEntity (c : VRSConnection) (info : EntityInfo) :
    Except String Unit × List OvsdbOp :=
  if info.uuid.length = 0 then (.error "Uuid absent", [])
  else if info.name.length = 0 then (.error "Name absent", [])
  else
    let row := nuageVMRowOf info
    match c.insertRow row with
    | .error e => (.error ("Problem adding entity info to VRS " ++ e), [.insertRow row])
    | .ok _ => (.ok (), [.insertRow row])

/-- `DestroyEntity` (`src/api/Entity.go:67-75`): one row delete by UUID. -/
def destroyEntity (c : VRSConnection) (uuid : String) :
    Except String Unit × List OvsdbOp :=
  match c.deleteRow (uuidCond uuid) with
  | .error e => (.error ("Unable to delete the entity from VRS " ++ e), [.deleteRow (uuidCond uuid)])
  | .ok _ => (.ok (), [.deleteRow (uuidCond uuid)])

/-- The `ReadRowArgs` built by `GetEntityPorts` (`src/api/Entity.go:141-144`). -/
def portReadArgs (uuid : String) : ReadRowArgs :=
  { columns := [nuageVMTableColumnPorts], condition := uuidCond uuid }

/-- `GetEntityPorts` (`src/api/Entity.go:139-152`): one row read by UUID,
yielding the port list. -/
def getEntityPorts (c : VRSConnection) (uuid : String) :
    Except String (List String) × List OvsdbOp :=
  match c.readRow (portReadArgs uuid) with
  | .error _ => (.error "Unable to get port information for the VM", [.readRow (portReadArgs uuid)])
  | .ok ports => (.ok ports, [.readRow (portReadArgs uuid)])

/-- `AddEntityPort` (`src/api/Entity.go:78-99`): read the current ports,
append `portName`, write the new set back.  `libovsdb.NewOvsSet` never fails
on a `[]string`, so the set construction is embedded as total. -/
def addEntityPort (c : VRSConnection) (uuid portName : String) :
    Except String Unit × List OvsdbOp :=
  match getEntityPorts c uuid with
  | (.error e, tr) => (.error ("Unable to get existing ports " ++ uuid ++ " " ++ e), tr)
  | (.ok ports, tr) =>
    let ports := ports ++ [portName]
    let row : RowUpdate := [(nuageVMTableColumnPorts, .strSet ports)]
    match c.updateRow row (uuidCond uuid) with
    | .error e =>
      (.error ("Unable to add port " ++ uuid ++ " " ++ portName ++ " " ++ e),
        tr ++ [.updateRow row (uuidCond uuid)])
    | .ok _ => (.ok (), tr ++ [.updateRow row (uuidCond uuid)])

/-- `RemoveEntityPort` (`src/api/Entity.go:102-136`): read the current ports,
find the first index holding `portName` (`strings.Compare == 0` is string
equality), error if absent, otherwise write back the list with that index
removed (`append(ports[:i], ports[i+1:]...)`). -/
def removeEntityPort (c : VRSConnection) (uuid portName : String) :
    Except String Unit × List OvsdbOp :=
  match getEntityPorts c uuid with
  | (.error e, tr) => (.error ("Unable to get existing ports " ++ uuid ++ " " ++ e), tr)
  | (.ok ports, tr) =>
    match ports.findIdx? (fun port => port == portName) with
    | none => (.error (uuid ++ " port " ++ portName ++ " not found"), tr)
    | some portIndex =>
      let ports := ports.take portIndex ++ ports.drop (portIndex + 1)
      let row : RowUpdate := [(nuageVMTableColumnPorts, .strSet ports)]
      match c.updateRow row (uuidCond uuid) with
      | .error e =>
        (.error ("Unable to remove port " ++ uuid ++ " " ++ portName ++ " " ++ e),
          tr ++ [.updateRow row (uuidCond uuid)])
      | .ok _ => (.ok (), tr ++ [.updateRow row (uuidCond uuid)])

/-- `SetEntityState` (`src/api/Entity.go:155-168`): one row update of the
state and reason columns by UUID. -/
def setEntityState (c : VRSConnection) (uuid : String) (state subState : Int) :
    Except String Unit × List OvsdbOp :=
  let row : RowUpdate :=
    [(nuageVMTableColumnState, .int state), (nuageVMTableColumnReason, .int subState)]
  match c.updateRow row (uuidCond uuid) with
  | .error e => (.error ("Unable to update the state " ++ uuid ++ " " ++ e),
      [.updateRow row (uuidCond uuid)])
  | .ok _ => (.ok (), [.updateRow row (uuidCond uuid)])

/-- `PostEntityEvent` (`src/api/Entity.go:171-188`).  `entity.ValidateEvent`
— modelled from the spec: the `entity` package's static event table is not
under `src/`, so the validator is passed in as a boolean function on the
(category, event) pair. -/
def postEntityEvent (c : VRSConnection) (validateEvent : Int → Int → Bool)
    (uuid : String) (evtCategory evt : Int) :
    Except String Unit × List OvsdbOp :=
  if !(validateEvent evtCategory evt) then
    (.error ("Invalid event for event category " ++ uuid), [])
  else
    let row : RowUpdate :=
      [(nuageVMTableColumnEventCategory, .int evtCategory),
        (nuageVMTableColumnEventType, .int evt)]
    match c.updateRow row (uuidCond uuid) with
    | .error e => (.error ("Unable to send the state " ++ uuid ++ " " ++ e),
        [.updateRow row (uuidCond uuid)])
    | .ok _ => (.ok (), [.updateRow row (uuidCond uuid)])

/-- `SetEntityMetadata` (`src/api/Entity.go:191-202`): one row update of the
metadata column by UUID. -/
def setEntityMetadata (c : VRSConnection) (uuid : String)
    (metadata : Option (List (String × String))) :
    Except String Unit × List OvsdbOp :=
  let row : RowUpdate := [(nuageVMTableColumnMetadata, .strMap metadata)]
  match c.updateRow row (uuidCond uuid) with
  | .error e => (.error ("Unable to update the metadata " ++ uuid ++ " " ++ e),
      [.updateRow row (uuidCond uuid)])
  | .ok _ => (.ok (), [.updateRow row (uuidCond uuid)])

/-- String value of a row's column; the Go code's `.(string)` type assertion
is embedded as defaulting to `""` (the assertion cannot fail on rows whose
UUID column holds a string). -/
def rowGetString (r : Row) (col : String) : String :=
  match List.lookup col r with
  | some (OvsdbValue.str s) => s
  | _ => ""

/-- The `ReadRowArgs` built by `GetAllEntities` (`src/api/Entity.go:206-209`):
condition `VMUuid != "xxxx"`. -/
def allEntitiesReadArgs : ReadRowArgs :=
  { columns := [nuageVMTableColumnVMUUID],
    condition := [nuageVMTableColumnVMUUID, "!=", "xxxx"] }

/-- `GetAllEntities` (`src/api/Entity.go:205-223`): read rows whose UUID
differs from `"xxxx"`, collect the UUID column of each. -/
def getAllEntities (c : VRSConnection) :
    Except String (List String) × List OvsdbOp :=
  match c.readRows allEntitiesReadArgs with
  | .error e => (.error ("Unable to obtain the entity uuids " ++ e), [.readRows allEntitiesReadArgs])
  | .ok uuidRows =>
    (.ok (uuidRows.map (fun r => rowGetString r nuageVMTableColumnVMUUID)),
      [.readRows allEntitiesReadArgs])

/-- Did a given issued call fail under connection `c`? -/
def opFails (c : VRSConnection) : OvsdbOp → Bool
  | .insertRow row => isErr (c.insertRow row)
  | .deleteRow cond => isErr (c.deleteRow cond)
  | .updateRow row cond => isErr (c.updateRow row cond)
  | .readRow args => isErr (c.readRow args)
  | .readRows args => isErr (c.readRows args)

/-- Modelled from the spec: the `ovsdb` wrapper's row-selection semantics
(`ReadRows` and its condition evaluation live in the repo's `ovsdb` package,
not under `src/`).  A condition `[col, "!=", v]` selects rows whose `col`
value differs from `v`; `[col, "==", v]` selects rows whose value equals it. -/
def evalCondition (r : Row) : List String → Bool
  | [col, op, v] =>
    if op == "==" then rowGetString r col == v
    else if op == "!=" then !(rowGetString r col == v)
    else false
  | _ => false

/-- Modelled from the spec: an honest OVSDB backend over a fixed table state:
`ReadRows` returns exactly the rows satisfying the condition; every other
call succeeds. -/
def honestConnection (table : List Row) : VRSConnection where
  insertRow _ := .ok ()
  deleteRow _ := .ok ()
  updateRow _ _ := .ok ()
  readRow _ := .ok []
  readRows args := .ok (table.filter (fun r => evalCondition r args.condition))

/-- The UUID list `GetAllEntities` returns against the honest backend over
`table` (empty on error, which the honest backend never produces). -/
def allEntitiesResult (table : List Row) : List String :=
  match (getAllEntities (honestConnection table)).1 with
  | .ok uuids => uuids
  | .error _ => []

/-- Does `CreateEntity`'s local precondition check fail
(`src/api/Entity.go:24-30`)? -/
def createPrecondFails (info : EntityInfo) : Bool :=
  info.uuid.length == 0 || info.name.length == 0

/-- Does `RemoveEntityPort`'s local precondition check fail: the port list
was read successfully but `portName` is not found in it
(`src/api/Entity.go:109-119`)? -/
def removePrecondFails (c : VRSConnection) (uuid portName : String) : Bool :=
  match c.readRow (portReadArgs uuid) with
  | .ok ps => (ps.findIdx? (fun port => port == portName)).isNone
  | .error _ => false

/-- Does `PostEntityEvent`'s local precondition check fail
(`src/api/Entity.go:173-175`)? -/
def postEventPrecondFails (validateEvent : Int → Int → Bool) (evtCategory evt : Int) : Bool :=
  !(validateEvent evtCategory evt)

/-- The error contract of one facade operation, over its result and trace:
(i) if some issued delegated call failed, the operation returns an error;
(ii) if the local precondition check failed, the operation returns an error;
(iii) an error arises only from a failed local precondition or a failed
delegated call — so with (i) and (ii), the result is an error iff the
precondition or some delegated call failed; (iv) every issued call before
the last one succeeded, i.e. after a failed call the operation stops — no
retry, no recovery. -/
def contract {α : Type} (c : VRSConnection) (precondFails : Bool)
    (r : Except String α × List OvsdbOp) : Prop :=
  ((∃ op ∈ r.2, opFails c op = true) → isErr r.1 = true) ∧
  (precondFails = true → isErr r.1 = true) ∧
  (isErr r.1 = true → precondFails = true ∨ ∃ op ∈ r.2, opFails c op = true) ∧
  (∀ op ∈ r.2.dropLast, opFails c op = false)

/-- A backend whose every call succeeds; the one read returns the port list
`["eth0", "eth1"]`. -/
def okConn : VRSConnection where
  insertRow _ := .ok ()
  deleteRow _ := .ok ()
  updateRow _ _ := .ok ()
  readRow _ := .ok ["eth0", "eth1"]
  readRows _ := .ok []

/-- A backend whose row deletes fail. -/
def delFailConn : VRSConnection :=
  { okConn with deleteRow := fun _ => .error "ovsdb down" }

/-- A concrete `EntityInfo` with an empty name. -/
def emptyNameInfo : EntityInfo :=
  { uuid := "u1", name := "", type := 0, domain := "kvm", ports := [], metadata := none }

/-- A concrete fully-populated `EntityInfo`. -/
def fullInfo : EntityInfo :=
  { uuid := "u1", name := "vm1", type := 1, domain := "kvm", ports := ["eth0"],
    metadata := some [(metadataKeyEnterprise, "ent1"), (metadataKeyUser, "alice")] }

/-- A concrete table state holding one row with UUID `"xxxx"` and one with
UUID `"u2"`. -/
def sampleTable : List Row :=
  [[(nuageVMTableColumnVMUUID, OvsdbValue.str "xxxx")],
    [(nuageVMTableColumnVMUUID, OvsdbValue.str "u2")]]

end Vrsdk

namespace Vspk

/-- `vspk.MetadataTag` (`src/unnamed/part_000:48-60`): the generated REST
model struct.  Go zero values: `""` for strings, `false` for bools. -/
structure MetadataTag where
  id : String := ""
  parentID : String := ""
  parentType : String := ""
  owner : String := ""
  name : String := ""
  lastUpdatedBy : String := ""
  description : String := ""
  entityScope : String := ""
  associatedExternalServiceID : String := ""
  autoCreated : Bool := false
  externalID : String := ""
deriving DecidableEq, Repr

/-- `NewMetadataTag` (`src/unnamed/part_000:63-66`): `&MetadataTag\x7b\x7d`, the
zero-valued struct. -/
def newMetadataTag : MetadataTag := {}

/-- `Identifier` (`src/unnamed/part_000:75-78`): returns `o.ID`. -/
def MetadataTag.identifier (o : MetadataTag) : String := o.id

/-- `SetIdentifier` (`src/unnamed/part_000:81-84`): sets `o.ID`. -/
def MetadataTag.setIdentifier (o : MetadataTag) (i : String) : MetadataTag :=
  { o with id := i }

end Vspk

namespace Vrsdk

/-- Helper: a Go string has length 0 iff it is the empty string. -/
theorem string_length_eq_zero_iff (s : String) : s.length = 0 ↔ s = "" := by
  constructor
  · intro h
    cases s with
    | mk data =>
      simp [String.length] at h
      simp [h]
  · intro h
    simp [h]

/-- Helper: when both precondition checks pass, `CreateEntity` issues exactly
the insert of the constructed row. -/
theorem createEntity_insert_trace (c : VRSConnection) (info : EntityInfo)
    (hu : info.uuid ≠ "") (hn : info.name ≠ "") :
    (createEntity c info).2 = [OvsdbOp.insertRow (nuageVMRowOf info)] := by
  cases hins : c.insertRow (nuageVMRowOf info) <;>
    simp [createEntity, string_length_eq_zero_iff, hu, hn, hins]

/-- C3: `CreateEntity` rejects an `EntityInfo` whose UUID or name is empty
with an error and issues no insert; with both non-empty the local
precondition check passes and the row insert is attempted. -/
theorem createEntity_empty_checks (c : VRSConnection) (info : EntityInfo) :
    ((info.uuid = "" ∨ info.name = "") →
      isErr (createEntity c info).1 = true ∧ (createEntity c info).2 = []) ∧
    (info.uuid ≠ "" → info.name ≠ "" →
      (createEntity c info).2 = [OvsdbOp.insertRow (nuageVMRowOf info)]) := by
  constructor
  · rintro (h | h)
    · simp [createEntity, h, isErr]
    · by_cases hu : info.uuid = ""
      · simp [createEntity, hu, isErr]
      · simp [createEntity, string_length_eq_zero_iff, hu, h, isErr]
  · exact createEntity_insert_trace c info

/-- C3 witness: creating an entity with an empty name errors with no insert. -/
theorem createEntity_empty_checks_witness :
    isErr (createEntity okConn emptyNameInfo).1 = true ∧
    (createEntity okConn emptyNameInfo).2 = [] :=
  (createEntity_empty_checks okConn emptyNameInfo).1 (Or.inr rfl)

/-- C8: for every `EntityInfo` passing the precondition checks, the inserted
row carries the fixed initial lifecycle values — event category `Defined`,
event type `DefinedAdded`, state `Running`, reason `RunningUnknown` —
regardless of the input. -/
theorem createEntity_initial_lifecycle (c : VRSConnection) (info : EntityInfo)
    (hu : info.uuid ≠ "") (hn : info.name ≠ "") :
    (createEntity c info).2 = [OvsdbOp.insertRow (nuageVMRowOf info)] ∧
    (nuageVMRowOf info).event = eventCategoryDefined ∧
    (nuageVMRowOf info).eventType = eventDefinedAdded ∧
    (nuageVMRowOf info).state = running ∧
    (nuageVMRowOf info).reason = runningUnknown :=
  ⟨createEntity_insert_trace c info hu hn, rfl, rfl, rfl, rfl⟩

/-- C8 witness: the lifecycle columns of the row inserted for a concrete
entity. -/
theorem createEntity_initial_lifecycle_witness :
    (createEntity okConn fullInfo).2 = [OvsdbOp.insertRow (nuageVMRowOf fullInfo)] ∧
    (nuageVMRowOf fullInfo).event = eventCategoryDefined ∧
    (nuageVMRowOf fullInfo).eventType = eventDefinedAdded ∧
    (nuageVMRowOf fullInfo).state = running ∧
    (nuageVMRowOf fullInfo).reason = runningUnknown :=
  createEntity_initial_lifecycle okConn fullInfo (by decide) (by decide)

end Vrsdk

namespace Vspk

/-- C7: a freshly constructed `MetadataTag` has an empty identifier, and the
identifier only changes when explicitly assigned: `SetIdentifier` is the sole
local mutator of the `ID` field and sets exactly it. -/
theorem newMetadataTag_identifier_empty :
    Vspk.newMetadataTag.identifier = "" ∧
    ∀ (o : MetadataTag) (i : String), (o.setIdentifier i).identifier = i :=
  ⟨rfl, fun _ _ => rfl⟩

end Vspk

namespace Vrsdk

/-- Helper: deleting key `x` from an association list leaves lookups of every
other key unchanged. -/
theorem lookup_filter_ne (m : List (String × String)) (k x : String) (hk : k ≠ x) :
    List.lookup k (m.filter fun kv => !(kv.1 == x)) = List.lookup k m := by
  induction m with
  | nil => rfl
  | cons a t ih =>
    obtain ⟨a1, a2⟩ := a
    by_cases ha : a1 = x
    · have hx : (a1 == x) = true := beq_iff_eq.mpr ha
      have hka : (k == a1) = false := beq_eq_false_iff_ne.mpr (fun he => hk (he.trans ha))
      simp [List.filter_cons, hx, List.lookup, hka, ih]
    · have hx : (a1 == x) = false := beq_eq_false_iff_ne.mpr ha
      by_cases hka : k = a1
      · simp [List.filter_cons, hx, List.lookup, beq_iff_eq.mpr hka]
      · simp [List.filter_cons, hx, List.lookup, beq_eq_false_iff_ne.mpr hka, ih]

/-- Helper: deleting key `x` from an association list removes it: the lookup
of `x` afterwards is `none`. -/
theorem lookup_filter_self (m : List (String × String)) (x : String) :
    List.lookup x (m.filter fun kv => !(kv.1 == x)) = none := by
  induction m with
  | nil => rfl
  | cons a t ih =>
    obtain ⟨a1, a2⟩ := a
    by_cases ha : a1 = x
    · have hx : (a1 == x) = true := beq_iff_eq.mpr ha
      simp [List.filter_cons, hx, ih]
    · have hx : (a1 == x) = false := beq_eq_false_iff_ne.mpr ha
      have hxa : (x == a1) = false := beq_eq_false_iff_ne.mpr (fun he => ha he.symm)
      simp [List.filter_cons, hx, List.lookup, hxa, ih]

/-- C9: the metadata column of the row built by `CreateEntity` is a copy of
`info.Metadata` with the user key deleted and every other key (the
enterprise key included) retained; the `NuageUser`/`NuageEnterprise` columns
are read from the original, unmodified `info.Metadata`; a `nil` map stays
`nil` (the deletion is a no-op). -/
theorem createEntity_metadata_handling (info : EntityInfo) :
    (info.metadata = none → (nuageVMRowOf info).metadata = none) ∧
    (∀ m, info.metadata = some m →
      ∃ m2, (nuageVMRowOf info).metadata = some m2 ∧
        List.lookup metadataKeyUser m2 = none ∧
        List.lookup metadataKeyEnterprise m2 = List.lookup metadataKeyEnterprise m ∧
        ∀ k, k ≠ metadataKeyUser → List.lookup k m2 = List.lookup k m) ∧
    (nuageVMRowOf info).nuageUser = mapGet info.metadata metadataKeyUser ∧
    (nuageVMRowOf info).nuageEnterprise = mapGet info.metadata metadataKeyEnterprise := by
  refine ⟨fun h => by simp [nuageVMRowOf, h], fun m hm => ?_, rfl, rfl⟩
  refine ⟨m.filter fun kv => !(kv.1 == metadataKeyUser), by simp [nuageVMRowOf, hm], ?_, ?_, ?_⟩
  · exact lookup_filter_self m metadataKeyUser
  · exact lookup_filter_ne m metadataKeyEnterprise metadataKeyUser (by decide)
  · exact fun k hk => lookup_filter_ne m k metadataKeyUser hk

/-- C9 witness: the metadata handling evaluated on a concrete entity whose
map holds both the enterprise and the user key. -/
theorem createEntity_metadata_handling_witness :
    (nuageVMRowOf fullInfo).nuageUser = mapGet fullInfo.metadata metadataKeyUser ∧
    ∃ m2, (nuageVMRowOf fullInfo).metadata = some m2 ∧
      List.lookup metadataKeyUser m2 = none ∧
      List.lookup metadataKeyEnterprise m2 =
        List.lookup metadataKeyEnterprise [(metadataKeyEnterprise, "ent1"), (metadataKeyUser, "alice")] := by
  obtain ⟨m2, h1, h2, h3, _⟩ :=
    (createEntity_metadata_handling fullInfo).2.1
      [(metadataKeyEnterprise, "ent1"), (metadataKeyUser, "alice")] rfl
  exact ⟨(createEntity_metadata_handling fullInfo).2.2.1, m2, h1, h2, h3⟩

/-- C10: `GetAllEntities` reads rows under the condition that the VM UUID
column differs from the literal `"xxxx"`, so against an honest backend over
any table state, every UUID it returns differs from `"xxxx"`. -/
theorem getAllEntities_excludes_xxxx (table : List Row) (u : String)
    (hu : u ∈ allEntitiesResult table) : u ≠ "xxxx" := by
  simp only [allEntitiesResult, getAllEntities, honestConnection] at hu
  rw [List.mem_map] at hu
  obtain ⟨r, hr, hval⟩ := hu
  rw [List.mem_filter] at hr
  have hcond : evalCondition r allEntitiesReadArgs.condition = true := hr.2
  have hne : (!(rowGetString r nuageVMTableColumnVMUUID == "xxxx")) = true := hcond
  intro heq
  rw [hval, heq] at hne
  simp at hne

/-- C10 witness: on a concrete table holding a row with UUID `"xxxx"` and a
row with UUID `"u2"`, the returned UUID `"u2"` differs from `"xxxx"`. -/
theorem getAllEntities_excludes_xxxx_witness :
    "u2" ∈ allEntitiesResult sampleTable ∧ "u2" ≠ "xxxx" :=
  ⟨by decide, getAllEntities_excludes_xxxx sampleTable "u2" (by decide)⟩

end Vrsdk

namespace Vrsdk

/-- C6 counterexample: `AddEntityPort` against a backend whose calls all
succeed issues two OVSDB calls (a ports read followed by a row update), not
at most one. -/
theorem addEntityPort_two_calls :
    ¬ (addEntityPort okConn "u1" "eth2").2.length ≤ 1 := by decide

/-- C6 amended: every public facade operation issues at most two OVSDB calls
to the wrapped client, and every operation except the read-modify-write pair
`AddEntityPort`/`RemoveEntityPort` issues at most one. -/
theorem vrs_call_bounds (c : VRSConnection) (info : EntityInfo)
    (uuid portName : String) (st sub evtCat evt : Int)
    (v : Int → Int → Bool) (md : Option (List (String × String))) :
    (createEntity c info).2.length ≤ 1 ∧
    (destroyEntity c uuid).2.length ≤ 1 ∧
    (getEntityPorts c uuid).2.length ≤ 1 ∧
    (setEntityState c uuid st sub).2.length ≤ 1 ∧
    (postEntityEvent c v uuid evtCat evt).2.length ≤ 1 ∧
    (setEntityMetadata c uuid md).2.length ≤ 1 ∧
    (getAllEntities c).2.length ≤ 1 ∧
    (addEntityPort c uuid portName).2.length ≤ 2 ∧
    (removeEntityPort c uuid portName).2.length ≤ 2 := by
  refine ⟨?_, ?_, ?_, ?_, ?_, ?_, ?_, ?_, ?_⟩
  · by_cases hu : info.uuid.length = 0
    · simp [createEntity, hu]
    · by_cases hn : info.name.length = 0
      · simp [createEntity, hu, hn]
      · cases h : c.insertRow (nuageVMRowOf info) <;> simp [createEntity, hu, hn, h]
  · cases h : c.deleteRow (uuidCond uuid) <;> simp [destroyEntity, h]
  · cases h : c.readRow (portReadArgs uuid) <;> simp [getEntityPorts, h]
  · cases h : c.updateRow
      [(nuageVMTableColumnState, .int st), (nuageVMTableColumnReason, .int sub)]
      (uuidCond uuid) <;> simp [setEntityState, h]
  · by_cases hv : v evtCat evt
    · cases h : c.updateRow
        [(nuageVMTableColumnEventCategory, .int evtCat), (nuageVMTableColumnEventType, .int evt)]
        (uuidCond uuid) <;> simp [postEntityEvent, hv, h]
    · simp [postEntityEvent, hv]
  · cases h : c.updateRow [(nuageVMTableColumnMetadata, .strMap md)] (uuidCond uuid) <;>
      simp [setEntityMetadata, h]
  · cases h : c.readRows allEntitiesReadArgs <;> simp [getAllEntities, h]
  · cases hr : c.readRow (portReadArgs uuid) with
    | error e => simp [addEntityPort, getEntityPorts, hr]
    | ok ps =>
      cases h : c.updateRow [(nuageVMTableColumnPorts, .strSet (ps ++ [portName]))] (uuidCond uuid) <;>
        simp [addEntityPort, getEntityPorts, hr, h]
  · cases hr : c.readRow (portReadArgs uuid) with
    | error e => simp [removeEntityPort, getEntityPorts, hr]
    | ok ps =>
      cases hf : ps.findIdx? (fun port => port == portName) with
      | none => simp [removeEntityPort, getEntityPorts, hr, hf]
      | some i =>
        cases h : c.updateRow
            [(nuageVMTableColumnPorts, .strSet (ps.take i ++ ps.drop (i + 1)))] (uuidCond uuid) <;>
          simp [removeEntityPort, getEntityPorts, hr, hf, h]

/-- C1: `AddEntityPort` and `RemoveEntityPort` are read-modify-write: each
first issues the `GetEntityPorts` read, then writes back exactly the list it
read with `portName` appended, respectively with the found (first) occurrence
of `portName` removed. -/
theorem addRemove_read_modify_write (c : VRSConnection) (uuid portName : String)
    (ps : List String) (hread : c.readRow (portReadArgs uuid) = .ok ps) :
    (addEntityPort c uuid portName).2 =
      [OvsdbOp.readRow (portReadArgs uuid),
        OvsdbOp.updateRow [(nuageVMTableColumnPorts, OvsdbValue.strSet (ps ++ [portName]))]
          (uuidCond uuid)] ∧
    ∀ i, ps.findIdx? (fun port => port == portName) = some i →
      ps[i]? = some portName ∧
      (removeEntityPort c uuid portName).2 =
        [OvsdbOp.readRow (portReadArgs uuid),
          OvsdbOp.updateRow [(nuageVMTableColumnPorts,
            OvsdbValue.strSet (ps.take i ++ ps.drop (i + 1)))] (uuidCond uuid)] := by
  constructor
  · cases h : c.updateRow [(nuageVMTableColumnPorts, .strSet (ps ++ [portName]))] (uuidCond uuid) <;>
      simp [addEntityPort, getEntityPorts, hread, h]
  · intro i hf
    constructor
    · rw [List.findIdx?_eq_some_iff_getElem] at hf
      obtain ⟨hlt, hp, _⟩ := hf
      rw [List.getElem?_eq_getElem hlt]
      exact congrArg some (eq_of_beq hp)
    · cases h : c.updateRow
          [(nuageVMTableColumnPorts, .strSet (ps.take i ++ ps.drop (i + 1)))] (uuidCond uuid) <;>
        simp [removeEntityPort, getEntityPorts, hread, hf, h]

/-- C1 witness: concrete read-modify-write traces over the port list
`["eth0", "eth1"]`: adding `"eth1"` writes back the list with it appended,
removing `"eth1"` writes back the list with its first occurrence removed. -/
theorem addRemove_read_modify_write_witness :
    (addEntityPort okConn "u1" "eth1").2 =
      [OvsdbOp.readRow (portReadArgs "u1"),
        OvsdbOp.updateRow
          [(nuageVMTableColumnPorts, OvsdbValue.strSet ["eth0", "eth1", "eth1"])]
          (uuidCond "u1")] ∧
    (["eth0", "eth1"] : List String)[1]? = some "eth1" ∧
    (removeEntityPort okConn "u1" "eth1").2 =
      [OvsdbOp.readRow (portReadArgs "u1"),
        OvsdbOp.updateRow [(nuageVMTableColumnPorts, OvsdbValue.strSet ["eth0"])]
          (uuidCond "u1")] := by
  have h := addRemove_read_modify_write okConn "u1" "eth1" ["eth0", "eth1"] rfl
  have h2 := h.2 1 (by decide)
  exact ⟨h.1, h2.1, h2.2⟩

/-- Helper: if `x` is not an element of `ps` then the linear scan of
`RemoveEntityPort` finds no index. -/
theorem findIdx?_eq_none_of_not_mem (ps : List String) (x : String) (h : x ∉ ps) :
    ps.findIdx? (fun port => port == x) = none := by
  rw [List.findIdx?_eq_none_iff]
  intro p hp
  exact beq_eq_false_iff_ne.mpr (fun he => h (he ▸ hp))

/-- C2: if the port name is not an element of the port list returned by the
`GetEntityPorts` read, `RemoveEntityPort` returns an error and its trace is
the read alone — no row update is issued. -/
theorem removeEntityPort_not_found (c : VRSConnection) (uuid portName : String)
    (ps : List String) (hread : c.readRow (portReadArgs uuid) = .ok ps)
    (hmem : portName ∉ ps) :
    isErr (removeEntityPort c uuid portName).1 = true ∧
    (removeEntityPort c uuid portName).2 = [OvsdbOp.readRow (portReadArgs uuid)] := by
  have hf := findIdx?_eq_none_of_not_mem ps portName hmem
  simp [removeEntityPort, getEntityPorts, hread, hf, isErr]

/-- C2 witness: removing the port `"wlan0"`, absent from the read list
`["eth0", "eth1"]`, errors after the read alone. -/
theorem removeEntityPort_not_found_witness :
    isErr (removeEntityPort okConn "u1" "wlan0").1 = true ∧
    (removeEntityPort okConn "u1" "wlan0").2 = [OvsdbOp.readRow (portReadArgs "u1")] :=
  removeEntityPort_not_found okConn "u1" "wlan0" ["eth0", "eth1"] rfl (by decide)

end Vrsdk

namespace Vrsdk

/-- C4: `PostEntityEvent` with a (category, event) pair rejected by the
validator returns an error and issues no OVSDB call; with a valid pair it
issues exactly one update writing the event-category and event-type columns
of the row selected by the UUID. -/
theorem postEntityEvent_validation (c : VRSConnection) (v : Int → Int → Bool)
    (uuid : String) (evtCat evt : Int) :
    (v evtCat evt = false →
      isErr (postEntityEvent c v uuid evtCat evt).1 = true ∧
      (postEntityEvent c v uuid evtCat evt).2 = []) ∧
    (v evtCat evt = true →
      (postEntityEvent c v uuid evtCat evt).2 =
        [OvsdbOp.updateRow
          [(nuageVMTableColumnEventCategory, OvsdbValue.int evtCat),
            (nuageVMTableColumnEventType, OvsdbValue.int evt)] (uuidCond uuid)]) := by
  constructor
  · intro hv
    simp [postEntityEvent, hv, isErr]
  · intro hv
    cases h : c.updateRow
        [(nuageVMTableColumnEventCategory, .int evtCat), (nuageVMTableColumnEventType, .int evt)]
        (uuidCond uuid) <;>
      simp [postEntityEvent, hv, h]

/-- C4 witness: with an always-rejecting validator, posting an event errors
with no call; with an always-accepting one, exactly the two event columns
are written. -/
theorem postEntityEvent_validation_witness :
    (isErr (postEntityEvent okConn (fun _ _ => false) "u1" 3 4).1 = true ∧
      (postEntityEvent okConn (fun _ _ => false) "u1" 3 4).2 = []) ∧
    (postEntityEvent okConn (fun _ _ => true) "u1" 3 4).2 =
      [OvsdbOp.updateRow
        [(nuageVMTableColumnEventCategory, OvsdbValue.int 3),
          (nuageVMTableColumnEventType, OvsdbValue.int 4)] (uuidCond "u1")] :=
  ⟨(postEntityEvent_validation okConn (fun _ _ => false) "u1" 3 4).1 rfl,
    (postEntityEvent_validation okConn (fun _ _ => true) "u1" 3 4).2 rfl⟩

/-- Helper: the error contract of `CreateEntity`. -/
theorem contract_createEntity (c : VRSConnection) (info : EntityInfo) :
    contract c (createPrecondFails info) (createEntity c info) := by
  unfold contract createPrecondFails createEntity
  by_cases hu : info.uuid.length = 0
  · simp [hu, isErr]
  · by_cases hn : info.name.length = 0
    · simp [hu, hn, isErr]
    · cases hins : c.insertRow (nuageVMRowOf info) <;>
        simp [hu, hn, hins, isErr, opFails]

/-- Helper: the error contract of `DestroyEntity`. -/
theorem contract_destroyEntity (c : VRSConnection) (uuid : String) :
    contract c false (destroyEntity c uuid) := by
  unfold contract destroyEntity
  cases hd : c.deleteRow (uuidCond uuid) <;> simp [opFails, isErr, hd]

/-- Helper: the error contract of `GetEntityPorts`. -/
theorem contract_getEntityPorts (c : VRSConnection) (uuid : String) :
    contract c false (getEntityPorts c uuid) := by
  unfold contract getEntityPorts
  cases hr : c.readRow (portReadArgs uuid) <;> simp [opFails, isErr, hr]

/-- Helper: the error contract of `AddEntityPort`. -/
theorem contract_addEntityPort (c : VRSConnection) (uuid portName : String) :
    contract c false (addEntityPort c uuid portName) := by
  unfold contract addEntityPort getEntityPorts
  cases hr : c.readRow (portReadArgs uuid) with
  | error e => simp [opFails, isErr, hr]
  | ok ps =>
    cases h : c.updateRow [(nuageVMTableColumnPorts, .strSet (ps ++ [portName]))] (uuidCond uuid) <;>
      simp [opFails, isErr, hr, h, List.dropLast]

/-- Helper: the error contract of `RemoveEntityPort`. -/
theorem contract_removeEntityPort (c : VRSConnection) (uuid portName : String) :
    contract c (removePrecondFails c uuid portName) (removeEntityPort c uuid portName) := by
  unfold contract removePrecondFails removeEntityPort getEntityPorts
  cases hr : c.readRow (portReadArgs uuid) with
  | error e => simp [opFails, isErr, hr]
  | ok ps =>
    cases hf : ps.findIdx? (fun port => port == portName) with
    | none => simp [opFails, isErr, hr, hf]
    | some i =>
      cases h : c.updateRow
          [(nuageVMTableColumnPorts, .strSet (ps.take i ++ ps.drop (i + 1)))] (uuidCond uuid) <;>
        simp [opFails, isErr, hr, hf, h, List.dropLast]

/-- Helper: the error contract of `SetEntityState`. -/
theorem contract_setEntityState (c : VRSConnection) (uuid : String) (st sub : Int) :
    contract c false (setEntityState c uuid st sub) := by
  unfold contract setEntityState
  cases h : c.updateRow
      [(nuageVMTableColumnState, .int st), (nuageVMTableColumnReason, .int sub)]
      (uuidCond uuid) <;>
    simp [opFails, isErr, h]

/-- Helper: the error contract of `PostEntityEvent`. -/
theorem contract_postEntityEvent (c : VRSConnection) (v : Int → Int → Bool)
    (uuid : String) (evtCat evt : Int) :
    contract c (postEventPrecondFails v evtCat evt) (postEntityEvent c v uuid evtCat evt) := by
  unfold contract postEventPrecondFails postEntityEvent
  by_cases hv : v evtCat evt
  · cases h : c.updateRow
        [(nuageVMTableColumnEventCategory, .int evtCat), (nuageVMTableColumnEventType, .int evt)]
        (uuidCond uuid) <;>
      simp [opFails, isErr, hv, h]
  · simp [opFails, isErr, hv]

/-- Helper: the error contract of `SetEntityMetadata`. -/
theorem contract_setEntityMetadata (c : VRSConnection) (uuid : String)
    (md : Option (List (String × String))) :
    contract c false (setEntityMetadata c uuid md) := by
  unfold contract setEntityMetadata
  cases h : c.updateRow [(nuageVMTableColumnMetadata, .strMap md)] (uuidCond uuid) <;>
    simp [opFails, isErr, h]

/-- Helper: the error contract of `GetAllEntities`. -/
theorem contract_getAllEntities (c : VRSConnection) :
    contract c false (getAllEntities c) := by
  unfold contract getAllEntities
  cases h : c.readRows allEntitiesReadArgs <;> simp [opFails, isErr, h]

/-- C5: every public facade operation satisfies the error contract: the
result is an error if and only if the local precondition check failed or
some delegated OVSDB call failed — in particular a failing delegated call is
always surfaced to the caller as a non-nil error — and every call issued
before the last one succeeded, so no operation retries a failed call or
performs recovery. -/
theorem vrs_error_contract (c : VRSConnection) (info : EntityInfo)
    (uuid portName : String) (st sub evtCat evt : Int)
    (v : Int → Int → Bool) (md : Option (List (String × String))) :
    contract c (createPrecondFails info) (createEntity c info) ∧
    contract c false (destroyEntity c uuid) ∧
    contract c false (getEntityPorts c uuid) ∧
    contract c false (addEntityPort c uuid portName) ∧
    contract c (removePrecondFails c uuid portName) (removeEntityPort c uuid portName) ∧
    contract c false (setEntityState c uuid st sub) ∧
    contract c (postEventPrecondFails v evtCat evt) (postEntityEvent c v uuid evtCat evt) ∧
    contract c false (setEntityMetadata c uuid md) ∧
    contract c false (getAllEntities c) :=
  ⟨contract_createEntity c info, contract_destroyEntity c uuid,
    contract_getEntityPorts c uuid, contract_addEntityPort c uuid portName,
    contract_removeEntityPort c uuid portName, contract_setEntityState c uuid st sub,
    contract_postEntityEvent c v uuid evtCat evt, contract_setEntityMetadata c uuid md,
    contract_getAllEntities c⟩

/-- C5 witness: against a backend whose row deletes fail, the failed delete
issued by `DestroyEntity` is surfaced to the caller as an error. -/
theorem vrs_error_contract_witness :
    isErr (destroyEntity delFailConn "u1").1 = true :=
  ((vrs_error_contract delFailConn fullInfo "u1" "eth0" 0 0 0 0 (fun _ _ => true) none).2.1).1
    ⟨OvsdbOp.deleteRow (uuidCond "u1"), by decide, by decide⟩

end Vrsdk
